import Mathlib

/-
  Verification of the GRID3_mapTiles viewer core.

  Shallow embedding of:
    - the version compatibility check and URL-fragment record construction in
      app/src/MapView.tsx,
    - the style composer getMaplibreStyle in app/src/MapView.tsx,
    - the archive get-or-create logic in the archiveInfo closure of MapView.tsx,
    - the TileConfig endpoint resolver in 2-viewer/src/js/config.js.

  JavaScript idioms are made explicit: optional / nullable values are Option,
  thrown exceptions are Except.error, template-literal interpolation of
  undefined and null renders the strings "undefined" and "null", and the
  falsiness of the empty string is modelled by explicit tests against "".
-/

/-! ## Association-list maps (JS Map and URLSearchParams semantics) -/

/-- Lookup in an ordered association list; models JS Map.get returning
undefined (none) for absent keys. -/
def mapGet {α : Type} : List (String × α) → String → Option α
  | [], _ => none
  | (k', v) :: rest, k => if k' = k then some v else mapGet rest k

/-- Remove every pair with the given key; models URLSearchParams.delete. -/
def mapDelete {α : Type} (l : List (String × α)) (k : String) : List (String × α) :=
  l.filter (fun p => p.1 != k)

/-- Set a key to a value: replace the first occurrence in place (dropping any
later duplicates) or append when absent; models JS Map.set and
URLSearchParams.set. -/
def mapSet {α : Type} : List (String × α) → String → α → List (String × α)
  | [], k, v => [(k, v)]
  | (k', v') :: rest, k, v =>
    if k' = k then (k, v) :: mapDelete rest k else (k', v') :: mapSet rest k v

theorem mapGet_mapSet_self {α : Type} (l : List (String × α)) (k : String) (v : α) :
    mapGet (mapSet l k v) k = some v := by
  induction l with
  | nil => simp [mapSet, mapGet]
  | cons p rest ih =>
    by_cases h : p.1 = k
    · simp [mapSet, h, mapGet]
    · simp [mapSet, h, mapGet, ih]

theorem mem_keys_mapDelete {α : Type} (l : List (String × α)) (k k' : String) :
    (k ∈ (mapDelete l k').map Prod.fst) ↔ (k ≠ k' ∧ k ∈ l.map Prod.fst) := by
  simp only [mapDelete, List.mem_map]
  constructor
  · rintro ⟨p, hp, rfl⟩
    rw [List.mem_filter] at hp
    exact ⟨by simpa using hp.2, ⟨p, hp.1, rfl⟩⟩
  · rintro ⟨hne, p, hp, rfl⟩
    exact ⟨p, List.mem_filter.mpr ⟨hp, by simpa using hne⟩, rfl⟩

theorem mem_keys_mapSet {α : Type} (l : List (String × α)) (k k' : String) (v : α) :
    (k ∈ (mapSet l k' v).map Prod.fst) ↔ (k = k' ∨ k ∈ l.map Prod.fst) := by
  induction l with
  | nil => simp [mapSet]
  | cons p rest ih =>
    obtain ⟨a, b⟩ := p
    by_cases h : a = k'
    · subst h
      have hset : mapSet ((a, b) :: rest) a v = (a, v) :: mapDelete rest a := by
        simp [mapSet]
      rw [hset]
      simp only [List.map_cons, List.mem_cons, mem_keys_mapDelete]
      constructor
      · rintro (rfl | ⟨hne, hr⟩)
        · exact Or.inl rfl
        · exact Or.inr (Or.inr hr)
      · rintro (rfl | rfl | hr)
        · exact Or.inl rfl
        · exact Or.inl rfl
        · by_cases hk : k = a
          · exact Or.inl hk
          · exact Or.inr ⟨hk, hr⟩
    · simp only [mapSet, if_neg h, List.map_cons, List.mem_cons, ih]
      tauto

/-! ## JavaScript value coercions -/

/-- Models the JS truthiness test on an optional string: undefined and the
empty string are falsy. -/
def jsFalsyStr : Option String → Bool
  | none => true
  | some s => s == ""

/-- Models the JS expression env || default, where the empty string is falsy. -/
def jsOrDefault (v : Option String) (d : String) : String :=
  match v with
  | some s => if s == "" then d else s
  | none => d

/-- Accumulate a decimal digit sequence into a natural number; any
non-digit character yields none. -/
def parseDigitsAux : List Char → Nat → Option Nat
  | [], acc => some acc
  | c :: cs, acc =>
    if c.isDigit then parseDigitsAux cs (acc * 10 + (c.toNat - 48)) else none

/-- Parse a nonempty decimal digit sequence. -/
def parseDigits : List Char → Option Nat
  | [] => none
  | l => parseDigitsAux l 0

/-- Models JS unary plus (Number conversion) on the strings that arise as
version components: the empty string converts to 0, an optionally signed
decimal integer literal converts to its value, and anything else is NaN,
represented as none. -/
def jsNumOfString (s : String) : Option Int :=
  if s == "" then some 0
  else
    match s.data with
    | '-' :: ds => (parseDigits ds).map (fun n => -(n : Int))
    | ds => (parseDigits ds).map (fun n => (n : Int))

/-- Split a character list at every occurrence of the separator; the
structural-recursion counterpart of the JS String split method. -/
def splitChars (sep : Char) : List Char → List (List Char)
  | [] => [[]]
  | d :: ds =>
    if d == sep then [] :: splitChars sep ds
    else
      match splitChars sep ds with
      | [] => [[d]]
      | x :: xs => (d :: x) :: xs

/-- Models the JS expression s.split(sep) for a one-character separator. -/
def jsSplit (s : String) (sep : Char) : List String :=
  (splitChars sep s.data).map List.asString

/-- Whether the first list is an initial segment of the second. -/
def leadMatches : List Char → List Char → Bool
  | [], _ => true
  | _ :: _, [] => false
  | c :: cs, d :: ds => c == d && leadMatches cs ds

/-- Whether the first list occurs as a contiguous segment of the second. -/
def seqContains (sub : List Char) : List Char → Bool
  | [] => sub.isEmpty
  | c :: cs => leadMatches sub (c :: cs) || seqContains sub cs

/-- Models the JS expression s.includes(sub). -/
def jsIncludes (s sub : String) : Bool :=
  seqContains sub.data s.data

/-- Models template-literal interpolation of a possibly undefined string:
undefined renders as the text undefined. -/
def jsTemplateUndef : Option String → String
  | none => "undefined"
  | some s => s

/-- Models template-literal interpolation of a possibly null string:
null renders as the text null. -/
def jsTemplateNull : Option String → String
  | none => "null"
  | some s => s

/-! ## Version compatibility check (MapView.tsx, createEffect lines 400-418)

The VERSION_COMPATIBILITY table itself is imported from app/src/utils.ts,
which is outside the sources given here, so the checker is parameterized over
the table, modelled as a partial map from tileset major version to the list of
compatible style major versions (none is an absent key, i.e. undefined). -/

/-- The major version of a tileset version string, as computed by the source
expression plus version.split(".")[0]: the component before the first dot,
coerced to a number; none models NaN. -/
def tilesetMajor (version : String) : Option Int :=
  jsNumOfString ((jsSplit version '.').headD "")

/-- The mismatch message built by setMismatch in MapView.tsx. -/
def mismatchMessage (styleMajorVersion tilesetVersion : Int) : String :=
  "style v" ++ toString styleMajorVersion ++
    " may not be compatible with tileset v" ++ toString tilesetVersion ++ ". "

/-- The version compatibility check of MapView.tsx lines 404-417, for a
metadata document containing a version field. The source evaluates
VERSION_COMPATIBILITY[tilesetVersion].indexOf(styleMajorVersion): when the
tileset major is NaN or absent from the table the indexed value is undefined
and the indexOf call throws a TypeError, modelled as Except.error. Otherwise
ok (some msg) models setMismatch with the mismatch message and ok none models
setMismatch with the empty string (compatible). -/
def checkVersionCompat (table : Int → Option (List Int))
    (styleMajorVersion : Int) (tilesetVersionString : String) :
    Except Unit (Option String) :=
  match tilesetMajor tilesetVersionString with
  | none => Except.error ()
  | some tv =>
    match table tv with
    | none => Except.error ()
    | some compat =>
      if styleMajorVersion ∈ compat then Except.ok none
      else Except.ok (some (mismatchMessage styleMajorVersion tv))

/-- The compatibility table of the spec example, {2: [2,3], 3: [3]}, used as
a concrete instance of the table parameter. -/
def specCompatTable : Int → Option (List Int) :=
  fun k => if k = 2 then some [2, 3] else if k = 3 then some [3] else none

/-! ## Version compatibility claims -/

/-- Claim C1 (code_bug evidence): on a tileset version string whose major
version is absent from the compatibility table, the check of MapView.tsx does
not treat the pair as compatible: the lookup yields undefined and the indexOf
call throws a TypeError. Evaluated at the spec example check(2, "9.0.0") with
table {2: [2,3], 3: [3]}, the embedded check is an error, not a compatible
result. -/
theorem c1_unknown_tileset_major_throws :
    checkVersionCompat specCompatTable 2 "9.0.0" = Except.error () := by
  rfl

/-- Claim C8: when the tileset major version (the integer before the first
separator of the version string) is present in the compatibility table and
the style major version is not in its compatible set, the check reports
incompatible with a message naming both the style major version and the
tileset major version. -/
theorem c8_incompatible_reports_both_versions
    (table : Int → Option (List Int)) (styleMajorVersion : Int)
    (versionString : String) (tv : Int) (compat : List Int)
    (hparse : tilesetMajor versionString = some tv)
    (htable : table tv = some compat)
    (hnotin : styleMajorVersion ∉ compat) :
    checkVersionCompat table styleMajorVersion versionString =
      Except.ok (some ("style v" ++ toString styleMajorVersion ++
        " may not be compatible with tileset v" ++ toString tv ++ ". ")) := by
  simp [checkVersionCompat, hparse, htable, hnotin, mismatchMessage]

/-- Witness for C8: with the table {2: [2,3], 3: [3]} of the spec example,
check(5, "2.0.1") is incompatible (tileset major 2 is in the table, 5 is not
in its compatible set [2, 3]), with a message naming style v5 and tileset
v2. -/
theorem c8_incompatible_reports_both_versions_witness :
    checkVersionCompat specCompatTable 5 "2.0.1" =
      Except.ok (some "style v5 may not be compatible with tileset v2. ") := by
  have h := c8_incompatible_reports_both_versions specCompatTable 5 "2.0.1" 2 [2, 3]
    (by rfl) (by rfl) (by decide)
  rw [h]
  rfl

/-! ## Endpoint resolver (2-viewer/src/js/config.js, class TileConfig)

The liveness probe awaits a fetch of the health URL guarded by an
AbortController whose timer fires after 2000 ms. The outcome of that awaited
fetch is modelled as an explicit datatype: the request may resolve with a
response (carrying response.ok), or reject with the abort raised by the
timeout, a network failure, or a CORS failure. -/

/-- Possible outcomes of the awaited health-check fetch. -/
inductive FetchOutcome : Type
  | resolved (ok : Bool)
  | abortTimeout
  | networkFailure
  | corsFailure
deriving DecidableEq

/-- The body of the try block in checkCaddyAvailability: a resolved fetch
returns response.ok, every rejection is a thrown error. -/
def attemptHealthFetch : FetchOutcome → Except String Bool
  | FetchOutcome.resolved ok => Except.ok ok
  | FetchOutcome.abortTimeout => Except.error "AbortError"
  | FetchOutcome.networkFailure => Except.error "TypeError: Failed to fetch"
  | FetchOutcome.corsFailure => Except.error "TypeError: CORS request blocked"

/-- TileConfig.checkCaddyAvailability: the catch clause maps every thrown
error to false, so the probe always returns a boolean. -/
def checkCaddyAvailability (o : FetchOutcome) : Bool :=
  match attemptHealthFetch o with
  | Except.ok b => b
  | Except.error _ => false

/-- The caddy sub-resources of the endpoint table (always present). -/
structure CaddyEndpoints : Type where
  pmtiles : String
  mvt : String
  health : String
deriving DecidableEq

/-- The github sub-resource of the endpoint table; pmtiles stays null until
detectEnvironment recognizes the hosting context. -/
structure GithubEndpoints : Type where
  pmtiles : Option String
deriving DecidableEq

structure Endpoints : Type where
  caddy : CaddyEndpoints
  github : GithubEndpoints
deriving DecidableEq

/-- The mutable state of a TileConfig instance. -/
structure TileConfig : Type where
  endpoints : Endpoints
  currentEndpoint : Option String
  isLocalhost : Bool
  isGitHubPages : Bool
  repoName : String
  basePath : String
deriving DecidableEq

/-- The TileConfig constructor followed by detectEnvironment, as a function
of the two optional environment variables (VITE_CADDY_HOST, VITE_CADDY_PORT)
and of window.location.hostname and window.location.pathname. -/
def mkTileConfig (envCaddyHost envCaddyPort : Option String)
    (hostname pathname : String) : TileConfig :=
  let caddyHost := jsOrDefault envCaddyHost "127.0.0.1"
  let caddyPort := jsOrDefault envCaddyPort "3002"
  let caddy : CaddyEndpoints :=
    { pmtiles := "http://" ++ caddyHost ++ ":" ++ caddyPort ++ "/static"
      mvt := "http://" ++ caddyHost ++ ":" ++ caddyPort ++ "/mvt"
      health := "http://" ++ caddyHost ++ ":" ++ caddyPort ++ "/health" }
  let isLocalhost := hostname == "localhost" || hostname == "127.0.0.1"
  let isGitHubPages := jsIncludes hostname "github.io"
  if isGitHubPages then
    let repoName := (jsSplit pathname '/').getD 1 ""
    let basePath := if repoName == "" then "" else "/" ++ repoName
    { endpoints := { caddy := caddy, github := { pmtiles := some (basePath ++ "/tiles") } }
      currentEndpoint := none
      isLocalhost := isLocalhost
      isGitHubPages := isGitHubPages
      repoName := repoName
      basePath := basePath }
  else if isLocalhost then
    { endpoints := { caddy := caddy, github := { pmtiles := some "./tiles" } }
      currentEndpoint := none
      isLocalhost := isLocalhost
      isGitHubPages := isGitHubPages
      repoName := ""
      basePath := "" }
  else
    { endpoints := { caddy := caddy, github := { pmtiles := none } }
      currentEndpoint := none
      isLocalhost := isLocalhost
      isGitHubPages := isGitHubPages
      repoName := ""
      basePath := "" }

/-- Result of TileConfig.selectBestEndpoint: the updated instance state, the
returned endpoint name, and whether checkCaddyAvailability was invoked. -/
structure SelectResult : Type where
  config : TileConfig
  chosen : String
  probed : Bool
deriving DecidableEq

/-- TileConfig.selectBestEndpoint. On localhost and on GitHub Pages it awaits
checkCaddyAvailability and prefers caddy on success; in every other hosting
scenario it sets the github endpoint without probing. -/
def selectBestEndpoint (cfg : TileConfig) (o : FetchOutcome) : SelectResult :=
  if cfg.isLocalhost then
    if checkCaddyAvailability o then
      { config := { cfg with currentEndpoint := some "caddy" }, chosen := "caddy", probed := true }
    else
      { config := { cfg with currentEndpoint := some "github" }, chosen := "github", probed := true }
  else if cfg.isGitHubPages then
    if checkCaddyAvailability o then
      { config := { cfg with currentEndpoint := some "caddy" }, chosen := "caddy", probed := true }
    else
      { config := { cfg with currentEndpoint := some "github" }, chosen := "github", probed := true }
  else
    { config := { cfg with currentEndpoint := some "github" }, chosen := "github", probed := false }

/-- TileConfig.getPMTilesUrl: throws when no endpoint has been selected,
otherwise interpolates the chosen base (null renders as the text null) into
a pmtiles protocol URL. -/
def getPMTilesUrl (cfg : TileConfig) (tileName : String) : Except String String :=
  match cfg.currentEndpoint with
  | none => Except.error "Endpoint not selected. Call selectBestEndpoint() first."
  | some ce =>
    let endpoint : Option String :=
      if ce == "caddy" then some cfg.endpoints.caddy.pmtiles
      else cfg.endpoints.github.pmtiles
    Except.ok ("pmtiles://" ++ jsTemplateNull endpoint ++ "/" ++ tileName)

/-- TileConfig.getPMTilesBaseUrl: same selection logic without the protocol
prefix. -/
def getPMTilesBaseUrl (cfg : TileConfig) (tileName : String) : Except String String :=
  match cfg.currentEndpoint with
  | none => Except.error "Endpoint not selected. Call selectBestEndpoint() first."
  | some ce =>
    let endpoint : Option String :=
      if ce == "caddy" then some cfg.endpoints.caddy.pmtiles
      else cfg.endpoints.github.pmtiles
    Except.ok (jsTemplateNull endpoint ++ "/" ++ tileName)

/-! ## Endpoint resolver claims -/

/-- Claim C5: the liveness probe always returns a boolean and never throws to
its caller; whenever the awaited fetch rejects (timeout abort, network
failure, or CORS failure) the probe returns false. -/
theorem c5_probe_never_throws (o : FetchOutcome) :
    (checkCaddyAvailability o = true ∨ checkCaddyAvailability o = false)
    ∧ ((o = FetchOutcome.abortTimeout ∨ o = FetchOutcome.networkFailure
        ∨ o = FetchOutcome.corsFailure) → checkCaddyAvailability o = false) := by
  refine ⟨?_, ?_⟩
  · cases checkCaddyAvailability o
    · exact Or.inr rfl
    · exact Or.inl rfl
  · rintro (rfl | rfl | rfl) <;> rfl

/-- Witness for C5: a probe whose fetch is aborted by the 2000 ms timeout
returns false. -/
theorem c5_probe_never_throws_witness :
    checkCaddyAvailability FetchOutcome.abortTimeout = false :=
  (c5_probe_never_throws FetchOutcome.abortTimeout).2 (Or.inl rfl)

/-- Claim C6 counterexample: in a hosting context that is neither localhost
nor GitHub Pages (hostname example.org), selectBestEndpoint returns the
github fallback without invoking the probe, even though the probe would
succeed (the health fetch resolves ok); the claim that every deployment
context is probed and prefers the self-hosted endpoint on probe success is
false at this input. -/
theorem c6_other_context_not_probed :
    checkCaddyAvailability (FetchOutcome.resolved true) = true
    ∧ (selectBestEndpoint (mkTileConfig none none "example.org" "/")
        (FetchOutcome.resolved true)).chosen = "github"
    ∧ (selectBestEndpoint (mkTileConfig none none "example.org" "/")
        (FetchOutcome.resolved true)).probed = false := by
  refine ⟨rfl, ?_, ?_⟩ <;> rfl

/-- Claim C6 (amended): in the local development context and in the GitHub
Pages context, selectBestEndpoint invokes the probe and returns the
self-hosted endpoint exactly when the probe succeeds, falling back otherwise;
in any other hosting context it returns the fallback endpoint without
probing. -/
theorem c6_select_endpoint_amended (cfg : TileConfig) (o : FetchOutcome) :
    ((cfg.isLocalhost = true ∨ cfg.isGitHubPages = true) →
      (selectBestEndpoint cfg o).probed = true
      ∧ (selectBestEndpoint cfg o).chosen =
          (if checkCaddyAvailability o then "caddy" else "github"))
    ∧ (cfg.isLocalhost = false → cfg.isGitHubPages = false →
        (selectBestEndpoint cfg o).chosen = "github"
        ∧ (selectBestEndpoint cfg o).probed = false) := by
  constructor
  · rintro (h | h) <;>
      simp [selectBestEndpoint, h] <;>
      cases hc : checkCaddyAvailability o <;>
      simp [hc]
  · intro h1 h2
    simp [selectBestEndpoint, h1, h2]

/-- Witness for C6 (amended): on localhost with a probe that succeeds, the
self-hosted caddy endpoint is chosen and the probe was invoked. -/
theorem c6_select_endpoint_amended_witness :
    (selectBestEndpoint (mkTileConfig none none "localhost" "/")
      (FetchOutcome.resolved true)).probed = true
    ∧ (selectBestEndpoint (mkTileConfig none none "localhost" "/")
        (FetchOutcome.resolved true)).chosen = "caddy" := by
  have h := (c6_select_endpoint_amended (mkTileConfig none none "localhost" "/")
    (FetchOutcome.resolved true)).1 (Or.inl rfl)
  exact ⟨h.1, by rw [h.2]; rfl⟩

/-- Claim C10: while currentEndpoint is still null (selectBestEndpoint not
yet completed), getPMTilesUrl and getPMTilesBaseUrl both throw; after
selectBestEndpoint completes (for any probe outcome) both return a URL and do
not throw. -/
theorem c10_urls_require_selected_endpoint (cfg : TileConfig) (tileName : String) :
    (cfg.currentEndpoint = none →
      getPMTilesUrl cfg tileName =
        Except.error "Endpoint not selected. Call selectBestEndpoint() first."
      ∧ getPMTilesBaseUrl cfg tileName =
        Except.error "Endpoint not selected. Call selectBestEndpoint() first.")
    ∧ ∀ o : FetchOutcome, ∃ u v : String,
        getPMTilesUrl (selectBestEndpoint cfg o).config tileName = Except.ok u
        ∧ getPMTilesBaseUrl (selectBestEndpoint cfg o).config tileName = Except.ok v := by
  constructor
  · intro h
    exact ⟨by simp [getPMTilesUrl, h], by simp [getPMTilesBaseUrl, h]⟩
  · intro o
    have hsome : ∃ ce, (selectBestEndpoint cfg o).config.currentEndpoint = some ce := by
      by_cases h1 : cfg.isLocalhost <;> by_cases h2 : cfg.isGitHubPages <;>
        cases hc : checkCaddyAvailability o <;>
        simp [selectBestEndpoint, h1, h2, hc]
    obtain ⟨ce, hce⟩ := hsome
    have h1 : ∃ u, getPMTilesUrl (selectBestEndpoint cfg o).config tileName =
        Except.ok u := by
      simp only [getPMTilesUrl, hce]
      exact ⟨_, rfl⟩
    have h2 : ∃ v, getPMTilesBaseUrl (selectBestEndpoint cfg o).config tileName =
        Except.ok v := by
      simp only [getPMTilesBaseUrl, hce]
      exact ⟨_, rfl⟩
    obtain ⟨u, hu⟩ := h1
    obtain ⟨v, hv⟩ := h2
    exact ⟨u, v, hu, hv⟩

/-- Witness for C10: a freshly constructed localhost TileConfig has no
endpoint selected, both URL getters throw on it, and after a (failed-probe)
selection both return URLs. -/
theorem c10_urls_require_selected_endpoint_witness :
    getPMTilesUrl (mkTileConfig none none "localhost" "/") "roads.pmtiles" =
      Except.error "Endpoint not selected. Call selectBestEndpoint() first."
    ∧ getPMTilesBaseUrl (mkTileConfig none none "localhost" "/") "roads.pmtiles" =
      Except.error "Endpoint not selected. Call selectBestEndpoint() first."
    ∧ ∃ u v : String,
        getPMTilesUrl (selectBestEndpoint (mkTileConfig none none "localhost" "/")
          FetchOutcome.abortTimeout).config "roads.pmtiles" = Except.ok u
        ∧ getPMTilesBaseUrl (selectBestEndpoint (mkTileConfig none none "localhost" "/")
            FetchOutcome.abortTimeout).config "roads.pmtiles" = Except.ok v := by
  have h := c10_urls_require_selected_endpoint
    (mkTileConfig none none "localhost" "/") "roads.pmtiles"
  have h1 := h.1 (by rfl)
  exact ⟨h1.1, h1.2, h.2 FetchOutcome.abortTimeout⟩

/-! ## Archive registry (MapView.tsx, archiveInfo closure, lines 355-366)

A PMTiles instance is identified by the key of its byte source (for a remote
archive, the URL it was constructed from). Distinct constructor calls yield
distinct JS object instances; instance identity is modelled by a construction
counter carried in the protocol state. The protocol keeps its registered
archives in a Map keyed by source key (the pmtiles Protocol add method sets
tiles[archive.source.getKey()] = archive). -/

/-- An opened archive handle: its registry key and a construction identity. -/
structure PMTilesHandle : Type where
  key : String
  ctorId : Nat
deriving DecidableEq

/-- The protocol registry state: the key-to-archive map and the identity
counter for the next constructed handle. -/
structure ProtocolState : Type where
  tiles : List (String × PMTilesHandle)
  nextCtorId : Nat
deriving DecidableEq

/-- The get-or-create logic of archiveInfo for a remote tiles URL:
archive = p.tiles.get(tiles); if absent, construct new PMTiles(tiles) and
p.add it. Returns the resolved handle and the updated registry. -/
def getOrCreateArchive (p : ProtocolState) (tilesUrl : String) :
    PMTilesHandle × ProtocolState :=
  match mapGet p.tiles tilesUrl with
  | some archive => (archive, p)
  | none =>
    let archive : PMTilesHandle := { key := tilesUrl, ctorId := p.nextCtorId }
    (archive, { tiles := mapSet p.tiles tilesUrl archive, nextCtorId := p.nextCtorId + 1 })

/-! ## Archive registry claim -/

/-- Claim C3: get-or-create is deduplicating. Requesting the handle for a key
twice yields the same handle instance both times and the second request leaves
the registry untouched (no second archive is opened); moreover, whenever a
handle for the key is already registered, it is returned unchanged with the
registry state unmodified (no new construction, since the identity counter is
untouched). -/
theorem c3_archive_get_or_create_dedup (p : ProtocolState) (k : String) :
    ((getOrCreateArchive (getOrCreateArchive p k).2 k).1 = (getOrCreateArchive p k).1
      ∧ (getOrCreateArchive (getOrCreateArchive p k).2 k).2 = (getOrCreateArchive p k).2)
    ∧ (∀ h : PMTilesHandle, mapGet p.tiles k = some h →
        getOrCreateArchive p k = (h, p)) := by
  constructor
  · cases hm : mapGet p.tiles k with
    | some archive =>
      simp [getOrCreateArchive, hm]
    | none =>
      have hsecond : mapGet (mapSet p.tiles k
          { key := k, ctorId := p.nextCtorId }) k =
          some { key := k, ctorId := p.nextCtorId } :=
        mapGet_mapSet_self _ _ _
      simp [getOrCreateArchive, hm, hsecond]
  · intro h hm
    simp [getOrCreateArchive, hm]

/-- Witness for C3: with a registry already holding a handle for a URL key,
get-or-create returns that very handle and the unchanged state. -/
theorem c3_archive_get_or_create_dedup_witness :
    mapGet (ProtocolState.mk
        [("https://example.com/a.pmtiles", PMTilesHandle.mk "https://example.com/a.pmtiles" 0)] 1).tiles
      "https://example.com/a.pmtiles" =
        some (PMTilesHandle.mk "https://example.com/a.pmtiles" 0)
    ∧ getOrCreateArchive
        (ProtocolState.mk
          [("https://example.com/a.pmtiles", PMTilesHandle.mk "https://example.com/a.pmtiles" 0)] 1)
        "https://example.com/a.pmtiles" =
      (PMTilesHandle.mk "https://example.com/a.pmtiles" 0,
        ProtocolState.mk
          [("https://example.com/a.pmtiles", PMTilesHandle.mk "https://example.com/a.pmtiles" 0)] 1) := by
  refine ⟨rfl, ?_⟩
  exact (c3_archive_get_or_create_dedup
    (ProtocolState.mk
      [("https://example.com/a.pmtiles", PMTilesHandle.mk "https://example.com/a.pmtiles" 0)] 1)
    "https://example.com/a.pmtiles").2 _ rfl

/-! ## Style composer (MapView.tsx, getMaplibreStyle, lines 126-177)

The layer generator (layers from the styles package) and the archive URL
recognizer (isValidPMTiles from utils.ts) are imported from outside the given
sources, so the composer is parameterized over both. The flavor (theme) and
layer types are opaque type parameters. -/

/-- One entry of the sources mapping of a style document. -/
structure SourceSpec : Type where
  type : String
  attribution : Option String
  url : String
deriving DecidableEq

/-- A style document: version, named sources, ordered layers, sprite and
glyph URLs. -/
structure StyleSpec (L : Type) : Type where
  version : Nat
  sources : List (String × SourceSpec)
  layers : List L
  sprite : Option String
  glyphs : Option String

/-- The attribution string constant of MapView.tsx. -/
def ATTRIBUTION : String :=
  "<a href=\"https://github.com/protomaps/basemaps\">Protomaps</a> © <a href=\"https://openstreetmap.org\">OpenStreetMap</a>"

/-- getMaplibreStyle. Arguments follow the source signature (lang,
localSprites, flavorName?, flavor?, tiles?, npmLayers?, droppedArchive?),
preceded by the external collaborators: the layer generator, the
tile-archive URL recognizer, and window.location. -/
def getMaplibreStyle {F L : Type}
    (layersFn : String → F → String → List L)
    (isValidPMTiles : String → Bool)
    (locProtocol locHost : String)
    (lang : String) (localSprites : Bool)
    (flavorName : Option String) (flavor : Option F)
    (tiles : Option String) (npmLayers : Option (List L))
    (droppedArchive : Option PMTilesHandle) : StyleSpec L :=
  let style : StyleSpec L :=
    { version := 8, sources := [], layers := [], sprite := none, glyphs := none }
  match tiles with
  | none => style
  | some t =>
    if t == "" then style
    else
      match flavor with
      | none => style
      | some f =>
        let tilesWithProtocol : String :=
          match droppedArchive with
          | some a => "pmtiles://" ++ a.key
          | none => if isValidPMTiles t then "pmtiles://" ++ t else t
        let sprite : String :=
          if localSprites then
            locProtocol ++ "//" ++ locHost ++ "/" ++ jsTemplateUndef flavorName
          else
            "https://protomaps.github.io/basemaps-assets/sprites/v4/" ++
              jsTemplateUndef flavorName
        let glyphs : String :=
          "https://protomaps.github.io/basemaps-assets/fonts/{fontstack}/{range}.pbf"
        let sources : List (String × SourceSpec) :=
          [("protomaps",
            { type := "vector", attribution := some ATTRIBUTION, url := tilesWithProtocol })]
        let layersOut : List L :=
          match npmLayers with
          | some ls => if ls.length > 0 then ls else layersFn "protomaps" f lang
          | none => layersFn "protomaps" f lang
        { version := 8, sources := sources, layers := layersOut,
          sprite := some sprite, glyphs := some glyphs }

/-! ## Style composer claims -/

/-- Claim C4: for every language, sprite mode, override-layer list (and every
layer generator, URL recognizer and location), composition with an unresolved
tile source or an unresolved flavor returns the empty document: empty sources
mapping and empty layer list. The composer is a total function, so it never
throws. -/
theorem c4_unresolved_config_yields_empty_style {F L : Type}
    (layersFn : String → F → String → List L) (isValidPMTiles : String → Bool)
    (locProtocol locHost : String) (lang : String) (localSprites : Bool)
    (flavorName : Option String) (flavor : Option F)
    (tiles : Option String) (npmLayers : Option (List L))
    (droppedArchive : Option PMTilesHandle)
    (h : tiles = none ∨ tiles = some "" ∨ flavor = none) :
    (getMaplibreStyle layersFn isValidPMTiles locProtocol locHost lang localSprites
        flavorName flavor tiles npmLayers droppedArchive).sources = []
    ∧ (getMaplibreStyle layersFn isValidPMTiles locProtocol locHost lang localSprites
        flavorName flavor tiles npmLayers droppedArchive).layers = [] := by
  rcases h with rfl | rfl | rfl
  · exact ⟨rfl, rfl⟩
  · exact ⟨rfl, rfl⟩
  · cases tiles with
    | none => exact ⟨rfl, rfl⟩
    | some t =>
      by_cases ht : t == ""
      · constructor <;> simp [getMaplibreStyle, ht]
      · constructor <;> simp [getMaplibreStyle, ht]

/-- Witness for C4: with a nonempty layer generator but no tile source, the
document has empty sources and layers. -/
theorem c4_unresolved_config_yields_empty_style_witness :
    (getMaplibreStyle (fun _ (_ : String) _ => [1]) (fun _ => true) "http:" "localhost:3000"
        "en" false (some "light") (some "light") none none none).sources = []
    ∧ (getMaplibreStyle (fun _ (_ : String) _ => [1]) (fun _ => true) "http:" "localhost:3000"
        "en" false (some "light") (some "light") none none none).layers = [] :=
  c4_unresolved_config_yields_empty_style (fun _ (_ : String) _ => [1]) (fun _ => true)
    "http:" "localhost:3000" "en" false (some "light") (some "light") none none none
    (Or.inl rfl)

/-- Claim C7: with a resolved tile reference and flavor, composition emits
exactly one named vector source, protomaps, whose URL is resolved with the
precedence of the source: a dropped archive binds pmtiles:// plus the
registry key of the archive; otherwise a recognized tile-archive URL is
prefixed with pmtiles://; otherwise the reference is used verbatim. -/
theorem c7_single_source_resolution {F L : Type}
    (layersFn : String → F → String → List L) (isValidPMTiles : String → Bool)
    (locProtocol locHost : String) (lang : String) (localSprites : Bool)
    (flavorName : Option String) (f : F) (t : String)
    (npmLayers : Option (List L)) (droppedArchive : Option PMTilesHandle)
    (ht : t ≠ "") :
    (getMaplibreStyle layersFn isValidPMTiles locProtocol locHost lang localSprites
        flavorName (some f) (some t) npmLayers droppedArchive).sources =
      [("protomaps",
        { type := "vector", attribution := some ATTRIBUTION,
          url := match droppedArchive with
            | some a => "pmtiles://" ++ a.key
            | none => if isValidPMTiles t then "pmtiles://" ++ t else t })] := by
  have ht' : (t == "") = false := by
    simpa using ht
  simp [getMaplibreStyle, ht']

/-- Witness for C7: a dropped archive takes precedence over the tiles URL,
binding the single vector source to pmtiles:// plus the registry key of the
archive. -/
theorem c7_single_source_resolution_witness :
    (getMaplibreStyle (fun _ (_ : String) _ => [1]) (fun _ => true) "http:" "localhost:3000"
        "en" false (some "light") (some "light") (some "https://example.com/t.pmtiles")
        none (some (PMTilesHandle.mk "dropped-file-key" 3))).sources =
      [("protomaps",
        { type := "vector", attribution := some ATTRIBUTION,
          url := "pmtiles://dropped-file-key" })] := by
  have h := c7_single_source_resolution (fun _ (_ : String) _ => [1]) (fun _ => true)
    "http:" "localhost:3000" "en" false (some "light") "light"
    "https://example.com/t.pmtiles" none (some (PMTilesHandle.mk "dropped-file-key" 3))
    (by decide)
  rw [h]
  rfl

/-! ## View-state codec (MapView.tsx, createEffect lines 482-498)

The hash record construction lives in MapView.tsx; a field encoded as none
models a field set to undefined, which is a field the codec must not write.
The createHash function itself lives in app/src/utils.ts, outside the given
sources, and is modelled from the spec below. -/

/-- The default tiles constant of MapView.tsx. -/
def DEFAULT_TILES : String :=
  "https://pub-927f42809d2e4b89b96d1e7efb091d1f.r2.dev/global.pmtiles"

/-- The record assembled by the hash effect of MapView: flavorName and lang
are written unconditionally; tiles is undefined when a dropped archive is
active or the tiles signal equals DEFAULT_TILES; each flag is the text true
when on and undefined when off; npm_version is undefined when the published
style version is falsy (undefined or empty). -/
def hashRecord (flavorName lang tiles : String)
    (droppedArchive : Option PMTilesHandle)
    (localSprites showBoxes : Bool)
    (publishedStyleVersion : Option String) : List (String × Option String) :=
  [("flavorName", some flavorName),
   ("lang", some lang),
   ("tiles",
     if droppedArchive.isSome then none
     else if tiles == DEFAULT_TILES then none
     else some tiles),
   ("local_sprites", if localSprites then some "true" else none),
   ("show_boxes", if showBoxes then some "true" else none),
   ("npm_version",
     match publishedStyleVersion with
     | some v => if v == "" then none else some v
     | none => none)]

/-- Modelled from the spec: createHash is defined in app/src/utils.ts, which
is not among the given sources; only its caller (the hash effect of
MapView.tsx) is. Per spec section 4.6, encode merges the record fields into
whatever key/value pairs already exist in the fragment, preserving unrelated
keys; a field whose encoded value is absent has its key not written, and a
stale key for it is removed, since round-trips must not accumulate stale
default-valued keys. Fragments are represented as their ordered key/value
pair lists, following the fragment grammar of spec section 6. -/
def createHash (existingFragment : List (String × String))
    (record : List (String × Option String)) : List (String × String) :=
  record.foldl
    (fun acc kv =>
      match kv.2 with
      | none => mapDelete acc kv.1
      | some v => mapSet acc kv.1 v)
    existingFragment

/-! ## View-state codec claims -/

/-- Claim C2 counterexample: a state with an active dropped archive (and a
non-default tiles signal) and a state with no tile source set (tiles at its
default, no archive) encode to exactly the same fragment, so the
tileSourceReference encodings coincide; the claim that the codec
distinguishes the dropped state from the absent state is false at this
input. -/
theorem c2_dropped_conflated_with_absent_cex :
    createHash []
      (hashRecord "light" "en" "https://example.com/custom.pmtiles"
        (some (PMTilesHandle.mk "local-file" 0)) false false none) =
    createHash []
      (hashRecord "light" "en" DEFAULT_TILES none false false none) := by
  rfl

/-- Claim C2 (amended): encoding a state with an active dropped archive
writes no tiles key at all: the record it produces is identical, for every
dropped archive and tiles value, to the record of the state with no tile
source set, so the dropped state is deliberately not persisted and is encoded
exactly like the absent (default) tile source. -/
theorem c2_dropped_encoded_as_absent (flavorName lang tiles : String)
    (a : PMTilesHandle) (localSprites showBoxes : Bool)
    (publishedStyleVersion : Option String) :
    hashRecord flavorName lang tiles (some a) localSprites showBoxes
        publishedStyleVersion =
      hashRecord flavorName lang DEFAULT_TILES none localSprites showBoxes
        publishedStyleVersion := by
  simp [hashRecord]

/-- Claim C9 counterexample: encoding the all-default record (default theme
light, default language en, default tile source, flags off, no published
style version) into an empty fragment writes the flavorName key, so a key is
written for a field equal to its declared default; the claim is false at this
input. -/
theorem c9_default_field_key_written_cex :
    "flavorName" ∈
      (createHash []
        (hashRecord "light" "en" DEFAULT_TILES none false false none)).map Prod.fst := by
  decide

/-- Claim C9 (amended): for every existing fragment, the encode step omits
the tiles, local_sprites, show_boxes and npm_version keys when those fields
equal their defaults (default tile source, flags off, no published version),
removing any stale copies; but the flavorName and lang keys are always
written, even when they equal their defaults. -/
theorem c9_default_fields_omitted_except_flavor_lang
    (existing : List (String × String)) (flavorName lang : String) :
    ("tiles" ∉ (createHash existing
        (hashRecord flavorName lang DEFAULT_TILES none false false none)).map Prod.fst)
    ∧ ("local_sprites" ∉ (createHash existing
        (hashRecord flavorName lang DEFAULT_TILES none false false none)).map Prod.fst)
    ∧ ("show_boxes" ∉ (createHash existing
        (hashRecord flavorName lang DEFAULT_TILES none false false none)).map Prod.fst)
    ∧ ("npm_version" ∉ (createHash existing
        (hashRecord flavorName lang DEFAULT_TILES none false false none)).map Prod.fst)
    ∧ ("flavorName" ∈ (createHash existing
        (hashRecord flavorName lang DEFAULT_TILES none false false none)).map Prod.fst)
    ∧ ("lang" ∈ (createHash existing
        (hashRecord flavorName lang DEFAULT_TILES none false false none)).map Prod.fst) := by
  have hrec : hashRecord flavorName lang DEFAULT_TILES none false false none =
      [("flavorName", some flavorName), ("lang", some lang), ("tiles", none),
       ("local_sprites", none), ("show_boxes", none), ("npm_version", none)] := by
    simp [hashRecord]
  rw [hrec]
  simp only [createHash, List.foldl_cons, List.foldl_nil]
  refine ⟨?_, ?_, ?_, ?_, ?_, ?_⟩ <;>
    simp only [mem_keys_mapDelete, mem_keys_mapSet] <;> simp
